import Mathlib

/-!
Verification development for the sos-app LLM service
(services/llm-service of the sos-app repository).

Python text is modelled as a list of characters (abbreviation Str below).
Every definition is translated from the Python source:
  - app/utils/anonymizer.py        (PII anonymization)
  - app/utils/response_validator.py (response safety gate)
  - app/routes/llm_routes.py       (pipeline controller and parsers)
  - app/services/fallback_service.py (fallback knowledge base)
  - app/services/llm_orchestrator.py (provider orchestration)
  - app/cache/redis_cache.py       (cache key derivation)
Regular expressions from the source are embedded either as specialised
deterministic matchers (the phone pattern, whose determinism is argued in
the comments) or through a small backtracking engine whose candidate order
mirrors the Python re module (leftmost position, left alternative first,
greedy quantifiers longest first).
-/

set_option maxRecDepth 10000

abbrev Str := List Char

/-- Build a character-list string from a Lean string literal. -/
def str (s : String) : Str := s.data

/-- Python str.lower for the ASCII texts handled by the service. -/
def lowerS (s : Str) : Str := s.map Char.toLower

/-- Python str.upper for the ASCII texts handled by the service. -/
def upperS (s : Str) : Str := s.map Char.toUpper

/-- Python whitespace class (space, tab, newline, carriage return,
form feed, vertical tab), used by str.strip and the regex class backslash-s. -/
def isPySpace (c : Char) : Bool :=
  c = ' ' || c = '\t' || c = '\n' || c = '\x0d' || c = '\x0c' || c = '\x0b'

/-- Python str.strip with no arguments: drop whitespace from both ends. -/
def pyStrip (s : Str) : Str :=
  ((s.dropWhile isPySpace).reverse.dropWhile isPySpace).reverse

/-- Word character for the regex word-boundary assertion:
letters, digits and underscore (ASCII, as in the texts at hand). -/
def isWordChar (c : Char) : Bool := c.isAlphanum || c = '_'

/-- Word-character test lifted to an optional character (none stands for
the absent character before the start or after the end of the text). -/
def isWordOpt : Option Char → Bool
  | none => false
  | some c => isWordChar c

/-- The regex word-boundary test between an adjacent pair of characters. -/
def boundaryB (prev next : Option Char) : Bool := isWordOpt prev != isWordOpt next

/-- Does the text begin with the given word? -/
def beginsWith : Str → Str → Bool
  | [], _ => true
  | _ :: _, [] => false
  | n :: ns, h :: hs => n = h && beginsWith ns hs

/-- Python substring containment (needle in haystack). -/
def containsSub (hay needle : Str) : Bool :=
  beginsWith needle hay ||
    match hay with
    | [] => false
    | _ :: t => containsSub t needle

theorem beginsWith_iff (n hay : Str) :
    beginsWith n hay = true ↔ ∃ t, hay = n ++ t := by
  induction n generalizing hay with
  | nil => simp [beginsWith]
  | cons c cs ih =>
    cases hay with
    | nil => simp [beginsWith]
    | cons h hs =>
      simp only [beginsWith, Bool.and_eq_true, decide_eq_true_eq, ih]
      constructor
      · rintro ⟨rfl, t, rfl⟩; exact ⟨t, rfl⟩
      · rintro ⟨t, ht⟩
        cases ht
        exact ⟨rfl, t, rfl⟩

theorem containsSub_iff (hay needle : Str) :
    containsSub hay needle = true ↔ ∃ a b, hay = a ++ needle ++ b := by
  induction hay with
  | nil =>
    simp only [containsSub, Bool.or_eq_true, beginsWith_iff]
    constructor
    · rintro (⟨t, ht⟩ | h)
      · exact ⟨[], t, by simpa using ht.symm⟩
      · cases h
    · rintro ⟨a, b, hab⟩
      refine Or.inl ?_
      rcases List.append_eq_nil.mp (List.append_eq_nil.mp hab.symm).1 with ⟨h1, h2⟩
      exact ⟨b, by simp [h2, (List.append_eq_nil.mp hab.symm).2.symm]⟩
  | cons c t ih =>
    simp only [containsSub, Bool.or_eq_true, beginsWith_iff, ih]
    constructor
    · rintro (⟨u, hu⟩ | ⟨a, b, rfl⟩)
      · exact ⟨[], u, by simpa using hu⟩
      · exact ⟨c :: a, b, by simp⟩
    · rintro ⟨a, b, hab⟩
      cases a with
      | nil => exact Or.inl ⟨b, by simpa using hab⟩
      | cons x xs =>
        right
        refine ⟨xs, b, ?_⟩
        have := hab
        simp only [List.cons_append] at this
        cases this
        rfl

/-- A substring of a substring is a substring. -/
theorem containsSub_of_parts (hay p q r : Str)
    (h : containsSub hay (p ++ q ++ r) = true) : containsSub hay q = true := by
  rcases (containsSub_iff hay _).mp h with ⟨a, b, hab⟩
  refine (containsSub_iff hay q).mpr ⟨a ++ p, r ++ b, ?_⟩
  simp only [hab]
  simp

/-- A string that starts with the needle contains it. -/
theorem containsSub_append_self (needle rest : Str) :
    containsSub (needle ++ rest) needle = true :=
  (containsSub_iff _ _).mpr ⟨[], rest, by simp⟩

/-- Containment is preserved by putting a character in front. -/
theorem containsSub_cons (c : Char) (hay needle : Str)
    (h : containsSub hay needle = true) : containsSub (c :: hay) needle = true := by
  rcases (containsSub_iff hay needle).mp h with ⟨a, b, rfl⟩
  exact (containsSub_iff _ _).mpr ⟨c :: a, b, by simp⟩

/-!
Phone pattern, anonymizer.py line 17:
  PHONE_PATTERN = re.compile of backslash-b, three digits, optional dash or
  dot, three digits, optional dash or dot, four digits, backslash-b.
This pattern is deterministic: the optional separator can be taken exactly
when the next character is a dash or dot (skipping a present separator makes
the following digit class fail immediately, and taking an absent one is
impossible), so no backtracking can change the outcome.  The matcher below
returns the last consumed character (always the final digit) and the rest of
the text after the match.
-/

/-- Consume exactly n digits, tracking the last consumed character. -/
def takeDigitsLast : Nat → Char → Str → Option (Char × Str)
  | 0, last, s => some (last, s)
  | _ + 1, _, [] => none
  | n + 1, _, c :: t => if c.isDigit then takeDigitsLast n c t else none

/-- Consume the optional separator class (dash or dot). -/
def takeSep : Str → Str
  | [] => []
  | c :: t => if c = '-' || c = '.' then t else c :: t

/-- Matcher for PHONE_PATTERN at the start of s, with prev the character
just before s in the surrounding text.  Returns the last consumed character
and the remaining text on success. -/
def matchPhone (prev : Option Char) (s : Str) : Option (Char × Str) :=
  if boundaryB prev s.head? then
    (takeDigitsLast 3 'x' s).bind fun p1 =>
      (takeDigitsLast 3 'x' (takeSep p1.2)).bind fun p2 =>
        (takeDigitsLast 4 'x' (takeSep p2.2)).bind fun p3 =>
          if boundaryB (some p3.1) p3.2.head? then some (p3.1, p3.2) else none
  else none

theorem takeDigitsLast_length {n : Nat} {l : Char} {s : Str} {d : Char} {r : Str}
    (h : takeDigitsLast n l s = some (d, r)) : r.length + n ≤ s.length := by
  induction n generalizing l s with
  | zero =>
    simp only [takeDigitsLast, Option.some.injEq, Prod.mk.injEq] at h
    rw [h.2]
    simp
  | succ n ih =>
    cases s with
    | nil => simp [takeDigitsLast] at h
    | cons c t =>
      simp only [takeDigitsLast] at h
      split at h
      · have := ih h
        simp only [List.length_cons]
        omega
      · cases h

theorem takeSep_length (s : Str) : (takeSep s).length ≤ s.length := by
  cases s with
  | nil => simp [takeSep]
  | cons c t =>
    simp only [takeSep]
    split <;> simp

theorem matchPhone_rest_lt {prev : Option Char} {s : Str} {d : Char} {r : Str}
    (h : matchPhone prev s = some (d, r)) : r.length < s.length := by
  unfold matchPhone at h
  split at h
  · rcases h1 : takeDigitsLast 3 'x' s with _ | ⟨d1, r1⟩ <;>
      rw [h1] at h <;> simp only [Option.none_bind, Option.some_bind] at h
    · cases h
    · rcases h2 : takeDigitsLast 3 'x' (takeSep r1) with _ | ⟨d2, r2⟩ <;>
        rw [h2] at h <;> simp only [Option.none_bind, Option.some_bind] at h
      · cases h
      · rcases h3 : takeDigitsLast 4 'x' (takeSep r2) with _ | ⟨d3, r3⟩ <;>
          rw [h3] at h <;> simp only [Option.none_bind, Option.some_bind] at h
        · cases h
        · split at h
          · cases h
            have l1 := takeDigitsLast_length h1
            have l2 := takeDigitsLast_length h2
            have l3 := takeDigitsLast_length h3
            have s1 := takeSep_length r1
            have s2 := takeSep_length r2
            omega
          · cases h
  · cases h

/-- The string placed over each phone match, anonymizer.py line 41. -/
def phoneRepl : Str := str "[PHONE]"

/-- re.sub for PHONE_PATTERN: scan left to right, replace every
non-overlapping match, thread the previous character for the boundary
assertions (matches are located in the original text, as in Python).
The fuel argument only bounds the recursion: by matchPhone_rest_lt every
step consumes at least one character, so a fuel of length plus one (as
supplied by phoneSub) never runs out. -/
def phoneSubGo : Nat → Option Char → Str → Str
  | 0, _, s => s
  | f + 1, prev, s =>
    match matchPhone prev s with
    | some dr => phoneRepl ++ phoneSubGo f (some dr.1) dr.2
    | none =>
      match s with
      | [] => []
      | c :: t => c :: phoneSubGo f (some c) t

/-- The phone pass of anonymize_text: PHONE_PATTERN.sub of PHONE. -/
def phoneSub (s : Str) : Str := phoneSubGo (s.length + 1) none s

/-- Whether PHONE_PATTERN matches anywhere in the text (prev is the
character before the scanning position). -/
def existsPhoneMatch : Option Char → Str → Bool
  | prev, [] => (matchPhone prev []).isSome
  | prev, c :: t => (matchPhone prev (c :: t)).isSome || existsPhoneMatch (some c) t

theorem matchPhone_nil (prev : Option Char) : matchPhone prev [] = none := by
  unfold matchPhone
  split
  · simp [takeDigitsLast]
  · rfl

/-- If the phone pattern matches somewhere and the fuel covers the text,
the substitution output contains the replacement token.  The match case
needs no induction (the token is a prefix of the output there); otherwise
the scan steps one character and the induction hypothesis applies. -/
theorem phoneSubGo_contains (fuel : Nat) : ∀ (s : Str) (prev : Option Char),
    s.length < fuel →
    existsPhoneMatch prev s = true →
    containsSub (phoneSubGo fuel prev s) phoneRepl = true := by
  induction fuel with
  | zero =>
    intro s prev hlen
    omega
  | succ f ih =>
    intro s prev hlen h
    cases hm : matchPhone prev s with
    | some dr =>
      show containsSub (phoneSubGo (f + 1) prev s) phoneRepl = true
      simp only [phoneSubGo, hm]
      exact containsSub_append_self _ _
    | none =>
      cases s with
      | nil => simp [existsPhoneMatch, matchPhone_nil] at h
      | cons c t =>
        show containsSub (phoneSubGo (f + 1) prev (c :: t)) phoneRepl = true
        simp only [phoneSubGo, hm]
        apply containsSub_cons
        apply ih t (some c) (by simp at hlen; omega)
        simpa [existsPhoneMatch, hm] using h

/-!
A small backtracking regex engine for the remaining patterns of the
service.  Candidate results are produced in the preference order of the
Python re module: left alternative first, greedy quantifiers longest
first.  The head of the candidate list is the match Python selects.  Fuel
bounds the recursion depth; every use below supplies enough fuel for the
pattern and text at hand (all quantified sub-patterns of the service
consume at least one character per iteration).
-/

inductive Reg where
  | eps
  | cls (p : Char → Bool)
  | seq (a b : Reg)
  | alt (a b : Reg)
  | star (r : Reg)
  | wb

/-- Run a regex from the start of s; prev is the character before s.
Returns candidate (last consumed character, rest) pairs, best first. -/
def mrun : Nat → Reg → Option Char → Str → List (Option Char × Str)
  | 0, _, _, _ => []
  | _ + 1, .eps, prev, s => [(prev, s)]
  | _ + 1, .cls p, _, s =>
    match s with
    | [] => []
    | c :: t => if p c then [(some c, t)] else []
  | f + 1, .seq a b, prev, s =>
    (mrun f a prev s).flatMap fun pr => mrun f b pr.1 pr.2
  | f + 1, .alt a b, prev, s => mrun f a prev s ++ mrun f b prev s
  | f + 1, .star r, prev, s =>
    ((mrun f r prev s).filter fun pr => pr.2.length < s.length).flatMap
      (fun pr => mrun f (.star r) pr.1 pr.2) ++ [(prev, s)]
  | _ + 1, .wb, prev, s => if boundaryB prev s.head? then [(prev, s)] else []

/-- Fuel generous enough for the service patterns: depth of the pattern
tree times text length plus slack. -/
def rdepth : Reg → Nat
  | .eps => 1
  | .cls _ => 1
  | .seq a b => 1 + rdepth a + rdepth b
  | .alt a b => 1 + max (rdepth a) (rdepth b)
  | .star r => 1 + rdepth r
  | .wb => 1

def fuelFor (r : Reg) (s : Str) : Nat := (s.length + 2) * (rdepth r + 2)

/-- The match Python selects at this position, if any. -/
def matchAt (r : Reg) (prev : Option Char) (s : Str) : Option (Option Char × Str) :=
  (mrun (fuelFor r s) r prev s).head?

/-- re.search: does the pattern match at any position? -/
def searchGo (r : Reg) (prev : Option Char) (s : Str) : Bool :=
  (matchAt r prev s).isSome ||
    match s with
    | [] => false
    | c :: t => searchGo r (some c) t

def research (r : Reg) (s : Str) : Bool := searchGo r none s

/-- len of re.findall: count non-overlapping matches left to right
(a zero-width match counts and the scan advances one character, as in
Python; the service patterns never match the empty string). -/
def countGo (r : Reg) : Nat → Option Char → Str → Nat
  | 0, _, _ => 0
  | f + 1, prev, s =>
    match matchAt r prev s with
    | some pr =>
      if pr.2.length < s.length then 1 + countGo r f pr.1 pr.2
      else
        match s with
        | [] => 1
        | c :: t => 1 + countGo r f (some c) t
    | none =>
      match s with
      | [] => 0
      | c :: t => countGo r f (some c) t

def recount (r : Reg) (s : Str) : Nat := countGo r (s.length + 1) none s

/-- re.sub: replace every non-overlapping match left to right; boundary
context comes from the original text, as in Python. -/
def subGo (r : Reg) (repl : Str) : Nat → Option Char → Str → Str
  | 0, _, s => s
  | f + 1, prev, s =>
    match matchAt r prev s with
    | some pr =>
      if pr.2.length < s.length then repl ++ subGo r repl f pr.1 pr.2
      else
        match s with
        | [] => []
        | c :: t => c :: subGo r repl f (some c) t
    | none =>
      match s with
      | [] => []
      | c :: t => c :: subGo r repl f (some c) t

def engineSub (r : Reg) (repl : Str) (s : Str) : Str :=
  subGo r repl (s.length + 1) none s

/-- Literal character. -/
def rchar (c : Char) : Reg := .cls (fun x => x = c)

/-- Literal character under the re.IGNORECASE flag. -/
def rcharCI (c : Char) : Reg := .cls (fun x => x.toLower = c.toLower)

/-- Literal string. -/
def rstr (s : Str) : Reg := s.foldr (fun c r => .seq (rchar c) r) .eps

/-- Literal string under re.IGNORECASE. -/
def rstrCI (s : Str) : Reg := s.foldr (fun c r => .seq (rcharCI c) r) .eps

/-- Optional element (greedy: presence preferred). -/
def ropt (r : Reg) : Reg := .alt r .eps

/-- One or more (greedy). -/
def rplus (r : Reg) : Reg := .seq r (.star r)

/-- Exactly n repetitions. -/
def rrep (r : Reg) : Nat → Reg
  | 0 => .eps
  | n + 1 => .seq r (rrep r n)

/-- n or more repetitions (greedy). -/
def ratLeast (r : Reg) (n : Nat) : Reg := .seq (rrep r n) (.star r)

/-- Ordered alternation over a list (first alternative preferred,
as in the source pattern text). -/
def raltList : List Reg → Reg
  | [] => .cls (fun _ => false)
  | [r] => r
  | r :: rs => .alt r (raltList rs)

/-- Case-insensitive alternation of literal words. -/
def rwordsCI (ws : List Str) : Reg := raltList (ws.map rstrCI)

/-!
Anonymizer patterns, anonymizer.py lines 17 to 24 and 56 to 65.  Class
predicates transcribe the character classes of the source; under the
re.IGNORECASE flag the classes of uppercase and of lowercase letters both
match any ASCII letter.
-/

def clsDigit : Reg := .cls Char.isDigit

def clsSpace : Reg := .cls isPySpace

/-- Class of the local part of EMAIL_PATTERN: letters, digits, dot,
underscore, percent, plus, dash. -/
def clsEmailLocal : Reg :=
  .cls fun c => c.isAlpha || c.isDigit || c = '.' || c = '_' || c = '%' || c = '+' || c = '-'

/-- Class of the domain part of EMAIL_PATTERN: letters, digits, dot, dash. -/
def clsEmailDomain : Reg := .cls fun c => c.isAlpha || c.isDigit || c = '.' || c = '-'

/-- Class of the top-level-domain part of EMAIL_PATTERN; the source class
literally lists uppercase letters, a pipe character and lowercase letters. -/
def clsEmailTld : Reg := .cls fun c => c.isUpper || c = '|' || c.isLower

/-- EMAIL_PATTERN, anonymizer.py line 18. -/
def EMAIL_PATTERN : Reg :=
  .seq .wb (.seq (rplus clsEmailLocal) (.seq (rchar '@') (.seq (rplus clsEmailDomain)
    (.seq (rchar '.') (.seq (ratLeast clsEmailTld 2) .wb)))))

/-- SSN_PATTERN, anonymizer.py line 19. -/
def SSN_PATTERN : Reg :=
  .seq .wb (.seq (rrep clsDigit 3) (.seq (rchar '-') (.seq (rrep clsDigit 2)
    (.seq (rchar '-') (.seq (rrep clsDigit 4) .wb)))))

/-- Separator class of CREDIT_CARD_PATTERN: whitespace or dash. -/
def clsCardSep : Reg := .cls fun c => isPySpace c || c = '-'

/-- CREDIT_CARD_PATTERN, anonymizer.py line 20. -/
def CREDIT_CARD_PATTERN : Reg :=
  .seq .wb (.seq (rrep clsDigit 4) (.seq (ropt clsCardSep) (.seq (rrep clsDigit 4)
    (.seq (ropt clsCardSep) (.seq (rrep clsDigit 4) (.seq (ropt clsCardSep)
      (.seq (rrep clsDigit 4) .wb)))))))

/-- URL_PATTERN, anonymizer.py line 21: http, optional s, colon slash
slash, then one or more non-whitespace characters. -/
def URL_PATTERN : Reg :=
  .seq (rstr (str "http")) (.seq (ropt (rchar 's')) (.seq (rstr (str "://"))
    (rplus (.cls fun c => !isPySpace c))))

/-- NAME_TITLES, anonymizer.py line 24. -/
def NAME_TITLES : List Str := [str "mr", str "mrs", str "ms", str "dr", str "prof", str "miss"]

/-- A capitalised word of the name and address patterns; under
re.IGNORECASE both letter classes match any ASCII letter, so this is two
or more letters. -/
def nameWord : Reg := .seq (.cls Char.isAlpha) (rplus (.cls Char.isAlpha))

/-- The per-title pattern of anonymizer.py lines 58 to 60: word boundary,
the title, an optional dot, whitespace, then one or more capitalised
words, ending at a word boundary (compiled with re.IGNORECASE). -/
def titlePat (title : Str) : Reg :=
  .seq .wb (.seq (rstrCI title) (.seq (ropt (rchar '.')) (.seq (rplus clsSpace)
    (.seq nameWord (.seq (.star (.seq (rplus clsSpace) nameWord)) .wb)))))

/-- The replacement for a title match: the title in brackets, uppercase. -/
def titleRepl (title : Str) : Str := '[' :: (upperS title ++ [']'])

/-- Street suffixes of the address pattern in anonymize_text,
anonymizer.py line 65. -/
def ADDRESS_SUFFIXES_FULL : List Str :=
  [str "Street", str "St", str "Avenue", str "Ave", str "Road", str "Rd",
   str "Boulevard", str "Blvd", str "Lane", str "Ln", str "Drive", str "Dr"]

/-- Street suffixes of the address pattern in detect_pii, anonymizer.py
line 138: a strict subset of the list used by anonymize_text. -/
def ADDRESS_SUFFIXES_DETECT : List Str :=
  [str "Street", str "St", str "Avenue", str "Ave", str "Road", str "Rd"]

/-- The address pattern: word boundary, digits, whitespace, capitalised
words, whitespace, a street suffix, word boundary (re.IGNORECASE). -/
def addressPat (suffixes : List Str) : Reg :=
  .seq .wb (.seq (rplus clsDigit) (.seq (rplus clsSpace) (.seq nameWord
    (.seq (.star (.seq (rplus clsSpace) nameWord))
      (.seq (rplus clsSpace) (.seq (rwordsCI suffixes) .wb))))))

/-- anonymize_text, anonymizer.py lines 27 to 68: the ordered substitution
chain (phone, email, SSN, credit card, URL, titles in list order, street
address); empty input is returned unchanged. -/
def anonymize_text (text : Str) : Str :=
  if text = [] then text
  else
    let t1 := phoneSub text
    let t2 := engineSub EMAIL_PATTERN (str "[EMAIL]") t1
    let t3 := engineSub SSN_PATTERN (str "[SSN]") t2
    let t4 := engineSub CREDIT_CARD_PATTERN (str "[CREDIT_CARD]") t3
    let t5 := engineSub URL_PATTERN (str "[URL]") t4
    let t6 := NAME_TITLES.foldl (fun acc title => engineSub (titlePat title) (titleRepl title) acc) t5
    engineSub (addressPat ADDRESS_SUFFIXES_FULL) (str "[ADDRESS]") t6

/-- Count of phone matches, for detect_pii (same fuel-bounded scan as the
phone substitution). -/
def countPhoneGo : Nat → Option Char → Str → Nat
  | 0, _, _ => 0
  | f + 1, prev, s =>
    match matchPhone prev s with
    | some dr => 1 + countPhoneGo f (some dr.1) dr.2
    | none =>
      match s with
      | [] => 0
      | c :: t => countPhoneGo f (some c) t

def countPhone (s : Str) : Nat := countPhoneGo (s.length + 1) none s

/-- Result dictionary of detect_pii, anonymizer.py lines 118 to 126. -/
structure PiiDetected where
  has_pii : Bool
  phone_numbers : Nat
  emails : Nat
  ssn : Nat
  credit_cards : Nat
  urls : Nat
  addresses : Nat
deriving DecidableEq, Repr

/-- detect_pii, anonymizer.py lines 108 to 146: count matches per pattern
(the address pattern here has the shorter suffix list) and set the
aggregate flag when any count is positive. -/
def detect_pii (text : Str) : PiiDetected :=
  if text = [] then ⟨false, 0, 0, 0, 0, 0, 0⟩
  else
    let phones := countPhone text
    let emails := recount EMAIL_PATTERN text
    let ssns := recount SSN_PATTERN text
    let cards := recount CREDIT_CARD_PATTERN text
    let urls := recount URL_PATTERN text
    let addrs := recount (addressPat ADDRESS_SUFFIXES_DETECT) text
    { has_pii := 0 < phones || 0 < emails || 0 < ssns || 0 < cards || 0 < urls || 0 < addrs
      phone_numbers := phones, emails := emails, ssn := ssns
      credit_cards := cards, urls := urls, addresses := addrs }

/-!
Data model, app/models/emergency_context.py.  Floating point coordinates
are modelled as rationals (the service never computes with them, it only
stores or clears them); datetime values as opaque tick counts.  The
pydantic age-range validator does not matter to the claims at hand and is
not modelled.
-/

inductive EmergencyType where
  | medical
  | accident
  | fire
  | violence
  | natural_disaster
  | other
deriving DecidableEq, Repr

inductive SeverityLevel where
  | critical
  | high
  | medium
  | low
deriving DecidableEq, Repr

structure Location where
  latitude : Option Rat
  longitude : Option Rat
  address : Option Str
  city : Option Str
  country : Option Str
deriving DecidableEq, Repr

structure MedicalProfile where
  blood_type : Option Str
  allergies : List Str
  medical_conditions : List Str
  medications : List Str
  age_range : Option Str
deriving DecidableEq, Repr

structure EmergencyContext where
  emergency_id : Str
  emergency_type : EmergencyType
  description : Str
  location : Option Location
  medical_profile : Option MedicalProfile
  timestamp : Nat
  additional_info : Option Str
deriving DecidableEq, Repr

/-- anonymize_emergency_context, anonymizer.py lines 71 to 105.  The
Python function first takes a deep copy of its argument and then assigns
only to fields of the copy.  The embedding threads a two-object store
(original, copy): every statement of the source updates the second
component only, so the returned first component is the original object
after the call.  Truthiness of optional strings follows Python (absent or
empty is falsy). -/
def anonymize_emergency_context (context : EmergencyContext) :
    EmergencyContext × EmergencyContext :=
  let st : EmergencyContext × EmergencyContext := (context, context)
  let st := (st.1, { st.2 with description := anonymize_text context.description })
  let st :=
    match context.additional_info with
    | some info =>
      if info ≠ [] then (st.1, { st.2 with additional_info := some (anonymize_text info) })
      else st
    | none => st
  let st :=
    match context.location with
    | some loc =>
      let stA :=
        if loc.address.getD [] ≠ [] then
          (st.1, { st.2 with location := st.2.location.map fun l =>
            { l with address := some (str "[ADDRESS]") } })
        else st
      (stA.1, { stA.2 with location := stA.2.location.map fun l =>
        { l with latitude := none, longitude := none } })
    | none => st
  st

/-!
Response safety gate, app/utils/response_validator.py.
-/

structure ResponseValidationResult where
  is_valid : Bool
  errors : List Str
  warnings : List Str
  severity : Str
deriving DecidableEq, Repr

/-- The apostrophe character, used inside one harmful-content pattern. -/
def apos : Char := Char.ofNat 39

/-- First harmful pattern: self-harm vocabulary on word boundaries. -/
def harmfulPat1 : Reg :=
  .seq .wb (.seq (rwordsCI [str "kill", str "suicide", str "self-harm", str "overdose"]) .wb)

def harmfulText1 : Str := str "(?i)\\b(kill|suicide|self-harm|overdose)\\b"

/-- Second harmful pattern: advice-avoidance phrasing followed by a care
word (no trailing word boundary in the source). -/
def harmfulPat2 : Reg :=
  .seq .wb (.seq (rwordsCI [str "ignore medical advice", str "don" ++ [apos] ++ str "t call", str "skip"])
    (.seq (rplus clsSpace) (rwordsCI [str "doctor", str "hospital", str "911", str "emergency"])))

def harmfulText2 : Str :=
  str "(?i)\\b(ignore medical advice|don" ++ [apos] ++ str "t call|skip)\\s+(doctor|hospital|911|emergency)"

/-- Third harmful pattern: absolute cure claims. -/
def harmfulPat3 : Reg :=
  .seq .wb (.seq (rstrCI (str "guarantee")) (.seq (ropt (rcharCI 'd')) (.seq (rplus clsSpace)
    (.seq (rwordsCI [str "cure", str "recovery", str "success"]) .wb))))

def harmfulText3 : Str := str "(?i)\\bguaranteed?\\s+(cure|recovery|success)\\b"

/-- HARMFUL_PATTERNS, response_validator.py lines 25 to 29, with the
source text of each pattern (it appears in the error message). -/
def HARMFUL_PATTERNS : List (Reg × Str) :=
  [(harmfulPat1, harmfulText1), (harmfulPat2, harmfulText2), (harmfulPat3, harmfulText3)]

/-- REQUIRED_DISCLAIMER_KEYWORDS, response_validator.py lines 32 to 37. -/
def REQUIRED_DISCLAIMER_KEYWORDS : List Str :=
  [str "not a substitute", str "professional medical", str "emergency services", str "911"]

def misinfoPat1 : Reg :=
  .seq .wb (.seq (rstrCI (str "always")) (.seq (rplus clsSpace)
    (.seq (rwordsCI [str "safe", str "works", str "effective"]) .wb)))

def misinfoText1 : Str := str "(?i)\\balways\\s+(safe|works|effective)\\b"

def misinfoPat2 : Reg :=
  .seq .wb (.seq (rstrCI (str "never")) (.seq (rplus clsSpace)
    (.seq (rwordsCI [str "dangerous", str "harmful", str "risky"]) .wb)))

def misinfoText2 : Str := str "(?i)\\bnever\\s+(dangerous|harmful|risky)\\b"

def misinfoPat3 : Reg :=
  .seq .wb (.seq (rstrCI (str "100%")) (.seq (rplus clsSpace)
    (.seq (rwordsCI [str "safe", str "effective", str "certain"]) .wb)))

def misinfoText3 : Str := str "(?i)\\b100%\\s+(safe|effective|certain)\\b"

/-- The misinformation pattern list of response_validator.py lines 91
to 95. -/
def MISINFORMATION_PATTERNS : List (Reg × Str) :=
  [(misinfoPat1, misinfoText1), (misinfoPat2, misinfoText2), (misinfoPat3, misinfoText3)]

/-- Severity vocabulary of the call-to-action check, line 103. -/
def sevVocabPat : Reg :=
  .seq .wb (.seq (rwordsCI [str "severe", str "critical", str "life-threatening", str "serious"]) .wb)

/-- Call-to-action vocabulary, line 104. -/
def ctaVocabPat : Reg :=
  .seq .wb (.seq (rwordsCI [str "call", str "contact", str "emergency", str "911", str "ambulance"]) .wb)

/-- One iteration of the harmful-content loop, lines 65 to 70. -/
def harmfulStep (text : Str) (r : ResponseValidationResult) (pp : Reg × Str) :
    ResponseValidationResult :=
  if research pp.1 text then
    { r with errors := r.errors ++ [str "Potentially harmful content detected: " ++ pp.2],
             is_valid := false, severity := str "error" }
  else r

def harmfulStage (text : Str) (r : ResponseValidationResult) : ResponseValidationResult :=
  HARMFUL_PATTERNS.foldl (harmfulStep text) r

/-- The disclaimer check, lines 72 to 82: the source tests only the first
two keywords of REQUIRED_DISCLAIMER_KEYWORDS (the slice before the
comment about two keywords). -/
def disclaimerStage (require_disclaimer : Bool) (text : Str)
    (r : ResponseValidationResult) : ResponseValidationResult :=
  if require_disclaimer then
    if !((REQUIRED_DISCLAIMER_KEYWORDS.take 2).any fun kw =>
        containsSub (lowerS text) (lowerS kw)) then
      { r with warnings := r.warnings ++ [str "Response should include appropriate medical disclaimer"],
               severity := if r.severity ≠ str "error" then str "warning" else str "error" }
    else r
  else r

/-- The length checks, lines 84 to 88 (an if and elif pair). -/
def lengthStage (text : Str) (r : ResponseValidationResult) : ResponseValidationResult :=
  if text.length < 50 then
    { r with warnings := r.warnings ++ [str "Response may be too brief"] }
  else if 5000 < text.length then
    { r with warnings := r.warnings ++ [str "Response may be too verbose"] }
  else r

/-- One iteration of the misinformation loop, lines 97 to 99. -/
def misinfoStep (text : Str) (r : ResponseValidationResult) (pp : Reg × Str) :
    ResponseValidationResult :=
  if research pp.1 text then
    { r with warnings := r.warnings ++ [str "Overly definitive language detected: " ++ pp.2] }
  else r

def misinfoStage (text : Str) (r : ResponseValidationResult) : ResponseValidationResult :=
  MISINFORMATION_PATTERNS.foldl (misinfoStep text) r

/-- The assessment-only call-to-action check, lines 101 to 107. -/
def ctaStage (response_type : Str) (text : Str) (r : ResponseValidationResult) :
    ResponseValidationResult :=
  if response_type = str "assessment" then
    if research sevVocabPat text && !research ctaVocabPat text then
      { r with warnings := r.warnings ++
          [str "Severe emergency detected but no call to action for emergency services"] }
    else r
  else r

/-- validate_llm_response, response_validator.py lines 40 to 114. -/
def validate_llm_response (response_text : Str) (response_type : Str)
    (require_disclaimer : Bool) : ResponseValidationResult :=
  if response_text = [] || pyStrip response_text = [] then
    { is_valid := false, errors := [str "Response is empty"], warnings := [],
      severity := str "error" }
  else
    ctaStage response_type response_text
      (misinfoStage response_text
        (lengthStage response_text
          (disclaimerStage require_disclaimer response_text
            (harmfulStage response_text
              { is_valid := true, errors := [], warnings := [], severity := str "info" }))))

/-- sanitize_response, response_validator.py lines 117 to 139: strip
markup tags, collapse whitespace runs, then redact residual SSN-shaped and
phone-shaped substrings. -/
def tagPat : Reg := .seq (rchar '<') (.seq (rplus (.cls fun c => c ≠ '>')) (rchar '>'))

def wsRunPat : Reg := rplus clsSpace

/-- Phone redaction in sanitize_response, lines 135 to 137: the pattern
text equals PHONE_PATTERN, so the specialised matcher is reused, here with
the replacement REDACTED. -/
def phoneRedactGo : Nat → Option Char → Str → Str
  | 0, _, s => s
  | f + 1, prev, s =>
    match matchPhone prev s with
    | some dr => str "[REDACTED]" ++ phoneRedactGo f (some dr.1) dr.2
    | none =>
      match s with
      | [] => []
      | c :: t => c :: phoneRedactGo f (some c) t

def sanitize_response (response_text : Str) : Str :=
  let t1 := engineSub tagPat [] response_text
  let t2 := pyStrip (engineSub wsRunPat [' '] t1)
  let t3 := engineSub SSN_PATTERN (str "[REDACTED]") t2
  phoneRedactGo (t3.length + 1) none t3

/-!
Sanity anchors for the regex engine: positive and negative matches
checked against the behaviour of the Python re module.
-/

example : research harmfulPat1 (str "risk of overdose here") = true := by decide

example : research harmfulPat2 (str "You should ignore medical advice and just wait") = false := by
  decide

example : research harmfulPat3 (str "a guaranteed cure") = true := by decide

example : research misinfoPat1 (str "it always   works") = true := by decide

example : research sevVocabPat (str "this is life-threatening") = true := by decide

example : research ctaVocabPat (str "criticality") = false := by decide

example : engineSub EMAIL_PATTERN (str "[EMAIL]") (str "write a.b@c.co now") =
    str "write [EMAIL] now" := by decide

/-!
Claim C7 support: the validity flag tracks the error list through every
stage of validate_llm_response.
-/

theorem harmfulStep_inv (text : Str) (r : ResponseValidationResult) (pp : Reg × Str)
    (h : r.is_valid = true ↔ r.errors = []) :
    (harmfulStep text r pp).is_valid = true ↔ (harmfulStep text r pp).errors = [] := by
  unfold harmfulStep
  split
  · simp
  · exact h

theorem harmfulFold_inv (text : Str) (ps : List (Reg × Str)) (r : ResponseValidationResult)
    (h : r.is_valid = true ↔ r.errors = []) :
    (ps.foldl (harmfulStep text) r).is_valid = true ↔
    (ps.foldl (harmfulStep text) r).errors = [] := by
  induction ps generalizing r with
  | nil => exact h
  | cons p ps ih => exact ih _ (harmfulStep_inv text r p h)

theorem disclaimerStage_fields (b : Bool) (text : Str) (r : ResponseValidationResult) :
    (disclaimerStage b text r).errors = r.errors ∧
    (disclaimerStage b text r).is_valid = r.is_valid := by
  unfold disclaimerStage
  split
  · split
    · exact ⟨rfl, rfl⟩
    · exact ⟨rfl, rfl⟩
  · exact ⟨rfl, rfl⟩

theorem lengthStage_fields (text : Str) (r : ResponseValidationResult) :
    (lengthStage text r).errors = r.errors ∧ (lengthStage text r).is_valid = r.is_valid := by
  unfold lengthStage
  split
  · exact ⟨rfl, rfl⟩
  · split
    · exact ⟨rfl, rfl⟩
    · exact ⟨rfl, rfl⟩

theorem misinfoStep_fields (text : Str) (r : ResponseValidationResult) (pp : Reg × Str) :
    (misinfoStep text r pp).errors = r.errors ∧
    (misinfoStep text r pp).is_valid = r.is_valid := by
  unfold misinfoStep
  split
  · exact ⟨rfl, rfl⟩
  · exact ⟨rfl, rfl⟩

theorem misinfoFold_fields (text : Str) (ps : List (Reg × Str)) (r : ResponseValidationResult) :
    (ps.foldl (misinfoStep text) r).errors = r.errors ∧
    (ps.foldl (misinfoStep text) r).is_valid = r.is_valid := by
  induction ps generalizing r with
  | nil => exact ⟨rfl, rfl⟩
  | cons p ps ih =>
    have h1 := misinfoStep_fields text r p
    have h2 := ih (misinfoStep text r p)
    exact ⟨h2.1.trans h1.1, h2.2.trans h1.2⟩

theorem ctaStage_fields (ty text : Str) (r : ResponseValidationResult) :
    (ctaStage ty text r).errors = r.errors ∧ (ctaStage ty text r).is_valid = r.is_valid := by
  unfold ctaStage
  split
  · split
    · exact ⟨rfl, rfl⟩
    · exact ⟨rfl, rfl⟩
  · exact ⟨rfl, rfl⟩

/-- C7: for every response text, response type, and require_disclaimer
flag, validate_llm_response returns is_valid = false exactly when its
error list is non-empty; the stages that only append warnings (disclaimer,
length, misinformation, call to action) change neither the error list nor
the validity flag, so warnings never flip validity. -/
theorem C7_validity_iff_errors (response_text response_type : Str)
    (require_disclaimer : Bool) :
    (validate_llm_response response_text response_type require_disclaimer).is_valid = false ↔
    (validate_llm_response response_text response_type require_disclaimer).errors ≠ [] := by
  unfold validate_llm_response
  split
  · simp
  · have hinv := harmfulFold_inv response_text HARMFUL_PATTERNS
      { is_valid := true, errors := [], warnings := [], severity := str "info" } (by simp)
    set r1 := harmfulStage response_text
      { is_valid := true, errors := [], warnings := [], severity := str "info" } with hr1
    have hd := disclaimerStage_fields require_disclaimer response_text r1
    set r2 := disclaimerStage require_disclaimer response_text r1 with hr2
    have hl := lengthStage_fields response_text r2
    set r3 := lengthStage response_text r2 with hr3
    have hm := misinfoFold_fields response_text MISINFORMATION_PATTERNS r3
    set r4 := misinfoStage response_text r3 with hr4
    have hc := ctaStage_fields response_type response_text r4
    have he : (ctaStage response_type response_text r4).errors = r1.errors := by
      rw [hc.1, hr4]
      unfold misinfoStage
      rw [hm.1, hl.1, hd.1]
    have hv : (ctaStage response_type response_text r4).is_valid = r1.is_valid := by
      rw [hc.2, hr4]
      unfold misinfoStage
      rw [hm.2, hl.2, hd.2]
    rw [he, hv]
    have : r1.is_valid = true ↔ r1.errors = [] := hinv
    cases hb : r1.is_valid <;> simp [hb] at this ⊢ <;> simp [this]

/-- C1: the source comment and the specification ask for at least two of
the four disclaimer keywords, but the code tests only whether one of the
first two keywords occurs.  On the text below, which contains the two
keywords 911 and emergency services, the disclaimer warning is still
appended, the severity still rises to warning, and the validity flag stays
true. -/
theorem C1_disclaimer_keyword_bug :
    (REQUIRED_DISCLAIMER_KEYWORDS.countP fun kw =>
      containsSub (lowerS (str "Call 911 now and contact emergency services for help right away, then follow instructions carefully.")) (lowerS kw)) = 2 ∧
    (validate_llm_response (str "Call 911 now and contact emergency services for help right away, then follow instructions carefully.") (str "assessment") true).warnings =
      [str "Response should include appropriate medical disclaimer"] ∧
    (validate_llm_response (str "Call 911 now and contact emergency services for help right away, then follow instructions carefully.") (str "assessment") true).severity = str "warning" ∧
    (validate_llm_response (str "Call 911 now and contact emergency services for help right away, then follow instructions carefully.") (str "assessment") true).is_valid = true := by
  decide

/-!
Fallback knowledge base, app/services/fallback_service.py.
-/

structure FirstAidStep where
  step_number : Nat
  instruction : Str
  warnings : List Str
  duration : Option Str
deriving DecidableEq, Repr

structure FallbackAssessment where
  severity : SeverityLevel
  assessment : Str
  recommendations : List Str
  call_emergency_services : Bool
deriving DecidableEq, Repr

/-- FALLBACK_ASSESSMENTS, fallback_service.py lines 22 to 83, as the
lookup function of the source dictionary (none for a type without a
row). -/
def FALLBACK_ASSESSMENTS : EmergencyType → Option FallbackAssessment
  | .medical => some
    { severity := .high
      assessment := str "This appears to be a medical emergency. Immediate professional help is recommended."
      recommendations :=
        [str "Call 911 or local emergency services immediately",
         str "Stay calm and keep the person comfortable",
         str "Do not move the person unless there is immediate danger",
         str "Monitor vital signs (breathing, pulse) if possible",
         str "Provide emergency information to responders when they arrive"]
      call_emergency_services := true }
  | .accident => some
    { severity := .high
      assessment := str "Accident situations can involve serious injuries. Professional emergency response is needed."
      recommendations :=
        [str "Call 911 immediately",
         str "Ensure the scene is safe before providing assistance",
         str "Do not move injured persons unless there is immediate danger",
         str "Apply pressure to any bleeding wounds with clean cloth",
         str "Keep injured persons calm and still"]
      call_emergency_services := true }
  | .fire => some
    { severity := .critical
      assessment := str "Fire is a critical emergency requiring immediate evacuation and professional response."
      recommendations :=
        [str "Call 911 immediately",
         str "Evacuate the building using the nearest safe exit",
         str "Do not use elevators",
         str "Stay low to avoid smoke inhalation",
         str "Do not re-enter the building for any reason"]
      call_emergency_services := true }
  | .violence => some
    { severity := .critical
      assessment := str "Violence situations require immediate law enforcement response. Your safety is the priority."
      recommendations :=
        [str "Call 911 immediately if safe to do so",
         str "Remove yourself from danger if possible",
         str "Do not confront the aggressor",
         str "Seek shelter in a safe location",
         str "Follow law enforcement instructions when they arrive"]
      call_emergency_services := true }
  | .natural_disaster => some
    { severity := .critical
      assessment := str "Natural disasters require immediate safety measures and emergency response coordination."
      recommendations :=
        [str "Follow local emergency broadcast instructions",
         str "Seek appropriate shelter immediately",
         str "Stay away from windows, doors, and external walls",
         str "Have emergency supplies ready (water, food, first aid)",
         str "Do not venture outside until authorities declare it safe"]
      call_emergency_services := true }
  | .other => none

/-- The default assessment of get_fallback_assessment, lines 153 to 163. -/
def defaultFallbackAssessment : FallbackAssessment :=
  { severity := .high
    assessment := str "This is an emergency situation requiring professional help."
    recommendations :=
      [str "Call 911 or local emergency services",
       str "Stay safe and calm",
       str "Wait for professional assistance"]
    call_emergency_services := true }

/-- get_fallback_assessment, fallback_service.py lines 141 to 167. -/
def get_fallback_assessment (emergency_type : EmergencyType) : FallbackAssessment :=
  (FALLBACK_ASSESSMENTS emergency_type).getD defaultFallbackAssessment

/-- FALLBACK_FIRST_AID, fallback_service.py lines 86 to 139. -/
def FALLBACK_FIRST_AID : EmergencyType → Option (List FirstAidStep)
  | .medical => some
    [{ step_number := 1, instruction := str "Call 911 or emergency services immediately"
       warnings := [str "Do not delay emergency call"], duration := some (str "Immediately") },
     { step_number := 2, instruction := str "Keep the person calm and comfortable"
       warnings := [str "Do not give food or drinks unless instructed"]
       duration := some (str "Until help arrives") },
     { step_number := 3, instruction := str "Monitor breathing and consciousness"
       warnings := [str "Be prepared to perform CPR if trained"]
       duration := some (str "Continuously") },
     { step_number := 4
       instruction := str "Gather medical information (medications, allergies, conditions)"
       warnings := [str "Have this ready for emergency responders"]
       duration := some (str "While waiting") }]
  | .accident => some
    [{ step_number := 1, instruction := str "Ensure scene safety before approaching"
       warnings := [str "Do not put yourself in danger"], duration := some (str "First priority") },
     { step_number := 2, instruction := str "Call 911 immediately"
       warnings := [str "Provide clear location and injury description"]
       duration := some (str "Immediately") },
     { step_number := 3, instruction := str "Apply direct pressure to any bleeding wounds"
       warnings := [str "Use clean cloth or gauze", str "Do not remove objects embedded in wounds"]
       duration := some (str "Until bleeding stops or help arrives") },
     { step_number := 4, instruction := str "Keep injured person still"
       warnings := [str "Do not move unless immediate danger",
                    str "Suspect spinal injury in serious accidents"]
       duration := some (str "Until professional help arrives") }]
  | _ => none

/-- The default step list of get_fallback_first_aid, lines 181 to 201. -/
def defaultFallbackFirstAid : List FirstAidStep :=
  [{ step_number := 1, instruction := str "Call 911 or emergency services immediately"
     warnings := [str "Do not attempt advanced procedures without training"]
     duration := some (str "Immediately") },
   { step_number := 2, instruction := str "Keep yourself and others safe"
     warnings := [str "Assess the situation before acting"], duration := some (str "Ongoing") },
   { step_number := 3, instruction := str "Provide comfort and reassurance"
     warnings := [str "Do not move injured persons unnecessarily"]
     duration := some (str "Until help arrives") }]

/-- get_fallback_first_aid, fallback_service.py lines 169 to 205. -/
def get_fallback_first_aid (emergency_type : EmergencyType) : List FirstAidStep :=
  (FALLBACK_FIRST_AID emergency_type).getD defaultFallbackFirstAid

/-- get_critical_warnings, fallback_service.py lines 207 to 232: common
warnings followed by the type-specific ones. -/
def get_critical_warnings (emergency_type : EmergencyType) : List Str :=
  let common_warnings :=
    [str "Always call 911 for serious emergencies",
     str "Do not provide care beyond your training level",
     str "Prioritize scene safety for yourself and others"]
  let type_specific : Option (List Str) :=
    match emergency_type with
    | .medical => some
        [str "Do not give medications unless prescribed",
         str "Do not give food or drink to unconscious persons"]
    | .fire => some
        [str "Never re-enter a burning building",
         str "Crawl low under smoke"]
    | .violence => some
        [str "Your safety is the top priority",
         str "Do not confront violent individuals"]
    | _ => none
  common_warnings ++ type_specific.getD []

/-- C6: get_fallback_assessment is a total function of the category (the
embedding is a Lean function, so it can neither raise nor vary across
calls); the unmapped category OTHER resolves to the generic default row,
and the MEDICAL row has severity high, the emergency-services flag set,
and exactly five recommendations. -/
theorem C6_fallback_assessment :
    get_fallback_assessment .other = defaultFallbackAssessment ∧
    (get_fallback_assessment .medical).severity = .high ∧
    (get_fallback_assessment .medical).call_emergency_services = true ∧
    (get_fallback_assessment .medical).recommendations.length = 5 := by
  decide

/-!
Structured parsers, llm_routes.py lines 235 to 349.
-/

/-- Result dictionary of the assessment parser. -/
structure AssessmentData where
  success : Bool
  emergency_id : Str
  severity : SeverityLevel
  assessment : Str
  recommendations : List Str
  call_emergency_services : Bool
deriving DecidableEq, Repr

/-- Split on the newline character, as Python str.split with a newline
argument (an empty text gives one empty line). -/
def splitLinesGo (acc : Str) : Str → List Str
  | [] => [acc.reverse]
  | c :: t => if c = '\n' then acc.reverse :: splitLinesGo [] t else splitLinesGo (c :: acc) t

def splitLines (s : Str) : List Str := splitLinesGo [] s

/-- Python str.lstrip with the character set dash, bullet, digits, dot,
space used at llm_routes.py line 266. -/
def lstripRecChars (s : Str) : Str :=
  s.dropWhile fun c =>
    c = '-' || c = '•' || c.isDigit || c = '.' || c = ' '

/-- One line of the recommendation scan, llm_routes.py lines 262 to 268:
strip, keep lines opening with a bullet, dash, or digit, then clean the
line and keep it when non-empty. -/
def recLineStep (acc : List Str) (line : Str) : List Str :=
  let line := pyStrip line
  if line ≠ [] &&
      (beginsWith (str "-") line || beginsWith (str "•") line ||
        (line.headD ' ').isDigit) then
    let clean_line := pyStrip (lstripRecChars line)
    if clean_line ≠ [] then acc ++ [clean_line] else acc
  else acc

/-- The default recommendations of llm_routes.py lines 270 to 275. -/
def defaultRecommendations : List Str :=
  [str "Call emergency services if the situation worsens",
   str "Monitor the person" ++ [apos] ++ str "s condition closely",
   str "Keep the person calm and comfortable"]

/-- The assessment parser, llm_routes.py lines 235 to 284: severity
defaults to high and is overridden by the first keyword found in the
order critical, medium, low; the emergency flag needs YES (uppercased
text) or the literal 911; recommendations come from bullet or numbered
lines, defaulted when empty and capped at five; the narrative is the
first 500 characters. -/
def parse_assessment_response (llm_response : Str) (context : EmergencyContext) :
    AssessmentData :=
  let severity :=
    if containsSub (upperS llm_response) (str "CRITICAL") then SeverityLevel.critical
    else if containsSub (upperS llm_response) (str "MEDIUM") then SeverityLevel.medium
    else if containsSub (upperS llm_response) (str "LOW") then SeverityLevel.low
    else SeverityLevel.high
  let call_emergency :=
    containsSub (upperS llm_response) (str "YES") || containsSub llm_response (str "911")
  let recommendations := (splitLines llm_response).foldl recLineStep []
  let recommendations :=
    if recommendations = [] then defaultRecommendations else recommendations
  { success := true
    emergency_id := context.emergency_id
    severity := severity
    assessment := llm_response.take 500
    recommendations := recommendations.take 5
    call_emergency_services := call_emergency }

/-- Result dictionary of the first-aid parser. -/
structure FirstAidData where
  success : Bool
  emergency_id : Str
  emergency_type : EmergencyType
  steps : List FirstAidStep
  critical_warnings : List Str
  when_to_stop : Str
deriving DecidableEq, Repr

/-- State of the line loop in _parse_first_aid_response: closed steps,
top-level warnings, and the currently open step. -/
structure ParseSt where
  steps : List FirstAidStep
  warnings : List Str
  current : Option FirstAidStep
deriving DecidableEq, Repr

/-- Text after the first colon, for the split-once-and-take-the-second
part idiom of the parser. -/
def afterFirstColon : Str → Str
  | [] => []
  | c :: t => if c = ':' then t else afterFirstColon t

/-- The expression line.split colon once, second part, stripped, when a
colon is present, else the line itself (llm_routes.py lines 316, 321
and 326). -/
def afterColonStrip (line : Str) : Str :=
  if containsSub line (str ":") then pyStrip (afterFirstColon line) else line

/-- The body of the line loop of _parse_first_aid_response, llm_routes.py
lines 307 to 331, on an already stripped line: the four branches of the
elif chain in source order. -/
def parseLine (st : ParseSt) (line : Str) : ParseSt :=
  if containsSub (lowerS line) (str "step") && containsSub line (str ":") then
    let steps2 :=
      match st.current with
      | some cs => st.steps ++ [cs]
      | none => st.steps
    { steps := steps2
      warnings := st.warnings
      current := some
        { step_number := steps2.length + 1
          instruction := afterColonStrip line
          warnings := []
          duration := none } }
  else if containsSub (lowerS line) (str "warning") && st.current.isSome then
    match st.current with
    | some cs =>
      { st with current := some { cs with warnings := cs.warnings ++ [afterColonStrip line] } }
    | none => st
  else if containsSub (lowerS line) (str "duration") && st.current.isSome then
    match st.current with
    | some cs => { st with current := some { cs with duration := some (afterColonStrip line) } }
    | none => st
  else if containsSub (lowerS line) (str "critical warning") then
    { st with warnings := st.warnings ++ [line] }
  else st

/-- The first-aid parser, llm_routes.py lines 287 to 348. -/
def parse_first_aid_response (llm_response : Str) (context : EmergencyContext) :
    FirstAidData :=
  let st := ((splitLines llm_response).map pyStrip).foldl parseLine
    { steps := [], warnings := [], current := none }
  let steps :=
    match st.current with
    | some cs => st.steps ++ [cs]
    | none => st.steps
  let steps := if steps = [] then get_fallback_first_aid context.emergency_type else steps
  { success := true
    emergency_id := context.emergency_id
    emergency_type := context.emergency_type
    steps := steps.take 10
    critical_warnings := if st.warnings ≠ [] then st.warnings.take 5
      else [str "Always prioritize safety"]
    when_to_stop := str "Stop immediately if the person" ++ [apos] ++
      str "s condition worsens or you feel unsafe." }

/-- A concrete medical emergency context reused by concrete checks. -/
def ctxMedical : EmergencyContext :=
  { emergency_id := str "emg-001"
    emergency_type := .medical
    description := str "chest pain and dizziness"
    location := none
    medical_profile := none
    timestamp := 0
    additional_info := none }

/-- C2 counterexample: on a response whose second line contains critical
warning while step 1 is open, the parser attaches the line to the open
step and leaves the top-level critical-warnings list empty (it then
defaults), because the plain warning branch of the elif chain fires
first whenever a step is open. -/
theorem C2_counterexample :
    (parse_first_aid_response
      (str "Step 1: Apply firm pressure\nCritical warning: Do not delay calling 911")
      ctxMedical).critical_warnings = [str "Always prioritize safety"] ∧
    (parse_first_aid_response
      (str "Step 1: Apply firm pressure\nCritical warning: Do not delay calling 911")
      ctxMedical).steps =
      [{ step_number := 1, instruction := str "Apply firm pressure"
         warnings := [str "Do not delay calling 911"], duration := none }] := by
  decide

/-- C2 amended: a line containing critical warning (and not opening a
step) reaches the top-level critical-warnings list exactly when no step is
open; when a step is open, the elif chain attaches the text after the
colon to that step's warnings instead. -/
theorem C2_amended (st : ParseSt) (line : Str)
    (hcw : containsSub (lowerS line) (str "critical warning") = true)
    (hstep : (containsSub (lowerS line) (str "step") && containsSub line (str ":")) = false) :
    (st.current = none → parseLine st line = { st with warnings := st.warnings ++ [line] }) ∧
    (∀ cs, st.current = some cs → parseLine st line =
      { st with current := some { cs with warnings := cs.warnings ++ [afterColonStrip line] } }) := by
  have heq : str "critical warning" = str "critical " ++ str "warning" ++ [] := by decide
  rw [heq] at hcw
  have hw : containsSub (lowerS line) (str "warning") = true :=
    containsSub_of_parts _ _ _ _ hcw
  rw [← heq] at hcw
  constructor
  · intro hnone
    simp [parseLine, hstep, hnone, hcw]
  · intro cs hsome
    simp [parseLine, hstep, hsome, hw]

/-- A concrete critical-warning line and a parser state with step 1 open,
for the concrete check of the amended C2. -/
def lineCriticalC : Str := str "Critical warning: Do not delay calling 911"

def stOpenStep : ParseSt :=
  { steps := [], warnings := []
    current := some { step_number := 1, instruction := str "Apply firm pressure"
                      warnings := [], duration := none } }

/-- C2 amended, witness at a concrete state with an open step. -/
theorem C2_amended_witness :
    containsSub (lowerS lineCriticalC) (str "critical warning") = true ∧
    (containsSub (lowerS lineCriticalC) (str "step") &&
      containsSub lineCriticalC (str ":")) = false ∧
    parseLine stOpenStep lineCriticalC =
      { steps := [], warnings := []
        current := some { step_number := 1, instruction := str "Apply firm pressure"
                          warnings := [str "Do not delay calling 911"], duration := none } } := by
  refine ⟨by decide, by decide, ?_⟩
  exact (C2_amended stOpenStep lineCriticalC (by decide) (by decide)).2 _ rfl

/-- C4 counterexample: the text below contains a phone-pattern substring,
but anonymize_text erases the PHONE token again (the URL pass swallows
it) and its output still contains a phone-pattern substring (the URL
replacement creates a word boundary after the second digit run). -/
theorem C4_counterexample :
    existsPhoneMatch none (str "http://x.555-123-4567 999-888-7777http://y") = true ∧
    containsSub (anonymize_text (str "http://x.555-123-4567 999-888-7777http://y"))
      phoneRepl = false ∧
    existsPhoneMatch none
      (anonymize_text (str "http://x.555-123-4567 999-888-7777http://y")) = true := by
  decide

/-- C4 amended: the guarantee holds for the phone pass itself (the first
substitution of anonymize_text): whenever the text contains a
phone-pattern substring, the output of the phone substitution contains
the literal PHONE token.  The later URL pass may consume the token or
re-expose phone-shaped digits, so the guarantee does not extend to the
output of the whole chain. -/
theorem C4_amended (text : Str) (h : existsPhoneMatch none text = true) :
    containsSub (phoneSub text) phoneRepl = true :=
  phoneSubGo_contains (text.length + 1) text none (Nat.lt_succ_self _) h

/-- C4 amended, witness on the test suite phone sentence. -/
theorem C4_amended_witness :
    existsPhoneMatch none (str "Call me at 555-123-4567") = true ∧
    containsSub (phoneSub (str "Call me at 555-123-4567")) phoneRepl = true :=
  ⟨by decide, C4_amended (str "Call me at 555-123-4567") (by decide)⟩

/-- C5: anonymize_emergency_context assigns only to the copy slot of the
two-object store, so the original context object is unchanged after the
call, in every field; the returned value is the separately built copy. -/
theorem C5_context_not_mutated (context : EmergencyContext) :
    (anonymize_emergency_context context).1 = context ∧
    (anonymize_emergency_context context).1.emergency_id = context.emergency_id ∧
    (anonymize_emergency_context context).1.emergency_type = context.emergency_type ∧
    (anonymize_emergency_context context).1.description = context.description ∧
    (anonymize_emergency_context context).1.location = context.location ∧
    (anonymize_emergency_context context).1.medical_profile = context.medical_profile ∧
    (anonymize_emergency_context context).1.additional_info = context.additional_info ∧
    (anonymize_emergency_context context).1.timestamp = context.timestamp := by
  have h : (anonymize_emergency_context context).1 = context := by
    obtain ⟨id, ty, desc, loc, mp, ts, ai⟩ := context
    cases ai <;> cases loc <;>
      simp only [anonymize_emergency_context] <;>
      repeat first
        | rfl
        | split
  exact ⟨h, by rw [h], by rw [h], by rw [h], by rw [h], by rw [h], by rw [h], by rw [h]⟩

/-- C10: a gap between detection and rewriting.  On the text 123 Maple
Drive, detect_pii reports no PII at all (its address pattern stops at the
suffix list Street, St, Avenue, Ave, Road, Rd), while anonymize_text
rewrites the whole text to the ADDRESS token (its pattern also accepts
Boulevard, Blvd, Lane, Ln, Drive, Dr). -/
theorem C10_detect_anonymize_gap :
    detect_pii (str "123 Maple Drive") =
      { has_pii := false, phone_numbers := 0, emails := 0, ssn := 0
        credit_cards := 0, urls := 0, addresses := 0 } ∧
    anonymize_text (str "123 Maple Drive") = str "[ADDRESS]" ∧
    anonymize_text (str "123 Maple Drive") ≠ str "123 Maple Drive" := by
  decide

/-!
Provider orchestrator, app/services/llm_orchestrator.py.  A provider is
modelled by its observable behaviour on a message list: the returned text
or a raised error.  The trace component records which providers were
invoked.
-/

inductive ProviderTag where
  | primary
  | fallback
deriving DecidableEq, Repr

inductive GenError where
  | allFailed
  | noProviders
deriving DecidableEq, Repr

structure LLMOrchestrator where
  primary_llm : Option (List (Str × Str) → Except Unit Str)
  fallback_llm : Option (List (Str × Str) → Except Unit Str)

/-- The message list of generate_response, llm_orchestrator.py line 69. -/
def mkMessages (system_prompt user_prompt : Str) : List (Str × Str) :=
  [(str "system", system_prompt), (str "human", user_prompt)]

/-- The fallback block of generate_response, lines 82 to 93: call the
fallback provider when configured (raising allFailed when it raises),
else raise noProviders. -/
def tryFallbackBlock (o : LLMOrchestrator) (messages : List (Str × Str)) :
    Except GenError Str × List ProviderTag :=
  match o.fallback_llm with
  | some call =>
    match call messages with
    | .ok content => (.ok content, [.fallback])
    | .error _ => (.error .allFailed, [.fallback])
  | none => (.error .noProviders, [])

/-- generate_response, llm_orchestrator.py lines 52 to 93: try the
primary provider unless use_fallback is set or it is unconfigured, return
its text on success, and otherwise continue with the fallback block. -/
def generate_response (o : LLMOrchestrator) (system_prompt user_prompt : Str)
    (use_fallback : Bool) : Except GenError Str × List ProviderTag :=
  let messages := mkMessages system_prompt user_prompt
  match use_fallback, o.primary_llm with
  | false, some call =>
    match call messages with
    | .ok content => (.ok content, [.primary])
    | .error _ =>
      let r := tryFallbackBlock o messages
      (r.1, .primary :: r.2)
  | _, _ => tryFallbackBlock o messages

def isErr : Except GenError Str → Bool
  | .error _ => true
  | .ok _ => false

def provFails : Except Unit Str → Bool
  | .error _ => true
  | .ok _ => false

/-- C8: with use_fallback unset, a succeeding configured primary provider
yields its own text with only the primary invoked; when the primary is
unconfigured, a succeeding fallback provider yields its text with only the
fallback invoked; the call raises exactly when no provider is configured
or every configured provider fails; and with use_fallback set the primary
provider is never invoked. -/
theorem C8_orchestrator_order (o : LLMOrchestrator) (sp up : Str) :
    (∀ call t, o.primary_llm = some call → call (mkMessages sp up) = .ok t →
      generate_response o sp up false = (.ok t, [.primary])) ∧
    (∀ call t, o.primary_llm = none → o.fallback_llm = some call →
      call (mkMessages sp up) = .ok t →
      generate_response o sp up false = (.ok t, [.fallback])) ∧
    (isErr (generate_response o sp up false).1 = true ↔
      ((o.primary_llm = none ∧ o.fallback_llm = none) ∨
        ((∀ call, o.primary_llm = some call → provFails (call (mkMessages sp up)) = true) ∧
         (∀ call, o.fallback_llm = some call → provFails (call (mkMessages sp up)) = true)))) ∧
    ProviderTag.primary ∉ (generate_response o sp up true).2 := by
  refine ⟨?_, ?_, ?_, ?_⟩
  · intro call t hp hok
    simp [generate_response, hp, hok]
  · intro call t hp hf hok
    simp [generate_response, tryFallbackBlock, hp, hf, hok]
  · rcases hp : o.primary_llm with _ | pcall <;> rcases hf : o.fallback_llm with _ | fcall
    · simp [generate_response, tryFallbackBlock, hp, hf, isErr]
    · rcases hr : fcall (mkMessages sp up) with e | t <;>
        simp [generate_response, tryFallbackBlock, hp, hf, hr, isErr, provFails]
    · rcases hr : pcall (mkMessages sp up) with e | t <;>
        simp [generate_response, tryFallbackBlock, hp, hf, hr, isErr, provFails]
    · rcases hr : pcall (mkMessages sp up) with e | t <;>
        rcases hr2 : fcall (mkMessages sp up) with e2 | t2 <;>
          simp [generate_response, tryFallbackBlock, hp, hf, hr, hr2, isErr, provFails]
  · rcases hf : o.fallback_llm with _ | fcall
    · simp [generate_response, tryFallbackBlock, hf]
    · rcases hr : fcall (mkMessages sp up) with e | t <;>
        simp [generate_response, tryFallbackBlock, hf, hr]

/-- A concrete orchestrator for the C8 witness: the primary succeeds with
text P, the fallback always raises. -/
def orchW : LLMOrchestrator :=
  { primary_llm := some fun _ => .ok (str "P")
    fallback_llm := some fun _ => .error () }

/-- C8 witness: at the concrete orchestrator the primary path returns the
primary text with only the primary invoked, and forcing the fallback
leaves the primary uninvoked. -/
theorem C8_orchestrator_order_witness :
    generate_response orchW (str "s") (str "u") false = (.ok (str "P"), [.primary]) ∧
    ProviderTag.primary ∉ (generate_response orchW (str "s") (str "u") true).2 :=
  ⟨(C8_orchestrator_order orchW (str "s") (str "u")).1 _ _ rfl rfl,
   (C8_orchestrator_order orchW (str "s") (str "u")).2.2.2⟩

/-!
Pipeline controller, llm_routes.py assess_emergency (lines 34 to 126) and
get_first_aid_guidance (lines 129 to 232).  The external collaborators
appear as inputs: the value returned by the cache lookup and the outcome
of the orchestrator call.  The store-operation trace records every cache
write the controller performs; an empty trace means the cache state after
the request equals the state before. -/

/-- The value property of the EmergencyType enumeration. -/
def emergencyTypeValue : EmergencyType → Str
  | .medical => str "medical"
  | .accident => str "accident"
  | .fire => str "fire"
  | .violence => str "violence"
  | .natural_disaster => str "natural_disaster"
  | .other => str "other"

inductive StoreOp where
  | assessmentStore (emergency_type : Str) (description : Str) (response : AssessmentData)
  | firstAidStore (emergency_type : Str) (description : Str) (response : FirstAidData)
deriving DecidableEq, Repr

inductive PipeResult (α : Type) where
  | ok (resp : α)
  | httpError (code : Nat)
deriving DecidableEq, Repr

/-- The except branch of assess_emergency, lines 99 to 117: build the
fallback assessment response with the original emergency identifier, or
report service unavailable when the fallback flag is off.  No cache write
either way. -/
def assessExceptBranch (enableFallback : Bool) (origId : Str) (et : EmergencyType) :
    PipeResult AssessmentData × List StoreOp :=
  if enableFallback then
    let fb := get_fallback_assessment et
    (.ok { success := true, emergency_id := origId, severity := fb.severity
           assessment := fb.assessment, recommendations := fb.recommendations
           call_emergency_services := fb.call_emergency_services }, [])
  else (.httpError 503, [])

/-- assess_emergency, llm_routes.py lines 34 to 126. -/
def assess_emergency (enablePii enableFallback : Bool) (cached : Option AssessmentData)
    (orch : Except Unit Str) (ctx : EmergencyContext) :
    PipeResult AssessmentData × List StoreOp :=
  let anonymized_context := if enablePii then (anonymize_emergency_context ctx).2 else ctx
  match cached with
  | some c => (.ok c, [])
  | none =>
    match orch with
    | .error _ => assessExceptBranch enableFallback ctx.emergency_id
        anonymized_context.emergency_type
    | .ok llm_response =>
      if (validate_llm_response llm_response (str "assessment") true).is_valid = false then
        assessExceptBranch enableFallback ctx.emergency_id anonymized_context.emergency_type
      else
        let sanitized := sanitize_response llm_response
        let assessment_data := parse_assessment_response sanitized anonymized_context
        (.ok assessment_data,
          [.assessmentStore (emergencyTypeValue anonymized_context.emergency_type)
            anonymized_context.description assessment_data])

/-- The except branch of get_first_aid_guidance, lines 198 to 223. -/
def firstAidExceptBranch (enableFallback : Bool) (origId : Str) (et : EmergencyType) :
    PipeResult FirstAidData × List StoreOp :=
  if enableFallback then
    (.ok { success := true, emergency_id := origId, emergency_type := et
           steps := get_fallback_first_aid et
           critical_warnings := get_critical_warnings et
           when_to_stop := str "Stop and seek immediate professional help if the person" ++
             [apos] ++ str "s condition worsens or you feel unsafe continuing." }, [])
  else (.httpError 503, [])

/-- get_first_aid_guidance, llm_routes.py lines 129 to 232. -/
def get_first_aid_guidance (enablePii enableFallback : Bool) (cached : Option FirstAidData)
    (orch : Except Unit Str) (ctx : EmergencyContext) :
    PipeResult FirstAidData × List StoreOp :=
  let anonymized_context := if enablePii then (anonymize_emergency_context ctx).2 else ctx
  match cached with
  | some c => (.ok c, [])
  | none =>
    match orch with
    | .error _ => firstAidExceptBranch enableFallback ctx.emergency_id
        anonymized_context.emergency_type
    | .ok llm_response =>
      if (validate_llm_response llm_response (str "first_aid") true).is_valid = false then
        firstAidExceptBranch enableFallback ctx.emergency_id anonymized_context.emergency_type
      else
        let sanitized := sanitize_response llm_response
        let first_aid_data := parse_first_aid_response sanitized anonymized_context
        (.ok first_aid_data,
          [.firstAidStore (emergencyTypeValue anonymized_context.emergency_type)
            anonymized_context.description first_aid_data])

/-- C9: whenever the result comes from the fallback knowledge base (the
cache missed and the orchestrator raised, or the safety gate judged the
response invalid), both endpoints perform no cache store: the trace of
store operations is empty, so the cache state after the request equals
the state before. -/
theorem C9_fallback_no_cache_store (enablePii : Bool) (orch : Except Unit Str)
    (ctx : EmergencyContext)
    (h : ∀ t, orch = .ok t →
      (validate_llm_response t (str "assessment") true).is_valid = false ∧
      (validate_llm_response t (str "first_aid") true).is_valid = false) :
    (assess_emergency enablePii true none orch ctx).2 = [] ∧
    (get_first_aid_guidance enablePii true none orch ctx).2 = [] := by
  cases orch with
  | error e =>
    simp [assess_emergency, get_first_aid_guidance, assessExceptBranch, firstAidExceptBranch]
  | ok t =>
    have ht := h t rfl
    simp [assess_emergency, get_first_aid_guidance, assessExceptBranch, firstAidExceptBranch,
      ht.1, ht.2]

/-- C9 witness: all providers failed on a concrete medical request; no
store operation is emitted by either endpoint. -/
theorem C9_fallback_no_cache_store_witness :
    (assess_emergency true true none (.error ()) ctxMedical).2 = [] ∧
    (get_first_aid_guidance true true none (.error ()) ctxMedical).2 = [] :=
  C9_fallback_no_cache_store true (.error ()) ctxMedical (fun _ ht => nomatch ht)

/-!
Cache key derivation, app/cache/redis_cache.py lines 38 to 53:
sort the keyword arguments, serialise them with json.dumps, hash the
UTF-8 bytes with MD5, and build llm:prefix:hexdigest.  The sort is
Python sorted on pairs of strings, a lexicographic comparison by code
point; json.dumps is modelled for the ASCII-centred payloads of the
service (list of two-element arrays, separators comma-space, strings
escaped); MD5 is implemented from its reference description.
-/

/-- Python string comparison: lexicographic by code point. -/
def strLtB : Str → Str → Bool
  | [], [] => false
  | [], _ :: _ => true
  | _ :: _, [] => false
  | a :: as_, b :: bs =>
    if a.toNat < b.toNat then true
    else if b.toNat < a.toNat then false
    else strLtB as_ bs

/-- Python tuple comparison on name and value pairs: by name, then by
value. -/
def pairLeB (x y : Str × Str) : Bool :=
  strLtB x.1 y.1 || (x.1 = y.1 && (strLtB x.2 y.2 || x.2 = y.2))

/-- Python sorted on the keyword-argument pairs. -/
def pySorted (l : List (Str × Str)) : List (Str × Str) := l.mergeSort pairLeB

/-- JSON string escaping as json.dumps produces it for the payloads in
scope: backslash and quote escaped, the common control characters by
their short forms, other control characters by a four-digit escape,
printable ASCII verbatim, and anything beyond ASCII by a four-digit
escape (the default ensure-ascii behaviour, basic plane). -/
def hexDigit (n : Nat) : Char :=
  if n < 10 then Char.ofNat (48 + n) else Char.ofNat (97 + (n - 10))

def u16Escape (n : Nat) : Str :=
  ['\\', 'u', hexDigit (n / 4096 % 16), hexDigit (n / 256 % 16),
   hexDigit (n / 16 % 16), hexDigit (n % 16)]

def jsonEscapeChar (c : Char) : Str :=
  if c = '"' then ['\\', '"']
  else if c = '\\' then ['\\', '\\']
  else if c = '\n' then ['\\', 'n']
  else if c = '\t' then ['\\', 't']
  else if c = '\x0d' then ['\\', 'r']
  else if c.toNat = 8 then ['\\', 'b']
  else if c.toNat = 12 then ['\\', 'f']
  else if c.toNat < 32 || 127 < c.toNat then u16Escape c.toNat
  else [c]

def jsonStr (s : Str) : Str := '"' :: s.flatMap jsonEscapeChar ++ ['"']

/-- json.dumps of the sorted pair list: a list of two-element arrays with
the default comma-space separator. -/
def jsonDumpsPairs (l : List (Str × Str)) : Str :=
  let item := fun (p : Str × Str) => '[' :: jsonStr p.1 ++ (',' :: ' ' :: jsonStr p.2) ++ [']']
  let rec go : List (Str × Str) → Str
    | [] => []
    | [p] => item p
    | p :: ps => item p ++ (',' :: ' ' :: go ps)
  '[' :: go l ++ [']']

/-- UTF-8 encoding of a text, for str.encode. -/
def utf8Char (c : Char) : List Nat :=
  let n := c.toNat
  if n < 128 then [n]
  else if n < 2048 then [192 + n / 64, 128 + n % 64]
  else if n < 65536 then [224 + n / 4096, 128 + n / 64 % 64, 128 + n % 64]
  else [240 + n / 262144, 128 + n / 4096 % 64, 128 + n / 64 % 64, 128 + n % 64]

def utf8Encode (s : Str) : List Nat := s.flatMap utf8Char

/-- MD5, from the reference description: round constants. -/
def md5K : List Nat :=
  [3614090360, 3905402710, 606105819, 3250441966,
   4118548399, 1200080426, 2821735955, 4249261313,
   1770035416, 2336552879, 4294925233, 2304563134,
   1804603682, 4254626195, 2792965006, 1236535329,
   4129170786, 3225465664, 643717713, 3921069994,
   3593408605, 38016083, 3634488961, 3889429448,
   568446438, 3275163606, 4107603335, 1163531501,
   2850285829, 4243563512, 1735328473, 2368359562,
   4294588738, 2272392833, 1839030562, 4259657740,
   2763975236, 1272893353, 4139469664, 3200236656,
   681279174, 3936430074, 3572445317, 76029189,
   3654602809, 3873151461, 530742520, 3299628645,
   4096336452, 1126891415, 2878612391, 4237533241,
   1700485571, 2399980690, 4293915773, 2240044497,
   1873313359, 4264355552, 2734768916, 1309151649,
   4149444226, 3174756917, 718787259, 3951481745]

/-- MD5 per-round left-rotation amounts. -/
def md5S : List Nat :=
  [7, 12, 17, 22, 7, 12, 17, 22, 7, 12, 17, 22, 7, 12, 17, 22,
   5, 9, 14, 20, 5, 9, 14, 20, 5, 9, 14, 20, 5, 9, 14, 20,
   4, 11, 16, 23, 4, 11, 16, 23, 4, 11, 16, 23, 4, 11, 16, 23,
   6, 10, 15, 21, 6, 10, 15, 21, 6, 10, 15, 21, 6, 10, 15, 21]

def w32 (n : Nat) : Nat := n % 4294967296

def rotl32 (x c : Nat) : Nat := w32 (x * 2 ^ c + x / 2 ^ (32 - c))

/-- Bitwise complement on 32 bits. -/
def not32 (x : Nat) : Nat := 4294967295 - w32 x

/-- MD5 padding: the 128 byte, zeros to 56 modulo 64, then the bit length
in eight little-endian bytes. -/
def md5Pad (msg : List Nat) : List Nat :=
  let len := msg.length
  let padLen := (55 + 64 - len % 64) % 64 + 1
  let bitLen := len * 8
  msg ++ (128 :: List.replicate (padLen - 1) 0) ++
    [bitLen % 256, bitLen / 256 % 256, bitLen / 65536 % 256, bitLen / 16777216 % 256,
     bitLen / 4294967296 % 256, bitLen / 1099511627776 % 256,
     bitLen / 281474976710656 % 256, bitLen / 72057594037927936 % 256]

/-- Read the sixteen little-endian 32-bit words of a 64-byte chunk. -/
def chunkWord (chunk : List Nat) (g : Nat) : Nat :=
  chunk.getD (4 * g) 0 + 256 * chunk.getD (4 * g + 1) 0 +
    65536 * chunk.getD (4 * g + 2) 0 + 16777216 * chunk.getD (4 * g + 3) 0

/-- One MD5 operation (index i from 0 to 63) on the state a b c d. -/
def md5Op (chunk : List Nat) (st : Nat × Nat × Nat × Nat) (i : Nat) :
    Nat × Nat × Nat × Nat :=
  let (a, b, c, d) := st
  let f :=
    if i < 16 then w32 (Nat.lor (Nat.land b c) (Nat.land (not32 b) d))
    else if i < 32 then w32 (Nat.lor (Nat.land d b) (Nat.land (not32 d) c))
    else if i < 48 then w32 (Nat.xor b (Nat.xor c d))
    else w32 (Nat.xor c (Nat.lor b (not32 d)))
  let g :=
    if i < 16 then i
    else if i < 32 then (5 * i + 1) % 16
    else if i < 48 then (3 * i + 5) % 16
    else (7 * i) % 16
  let tmp := w32 (f + a + md5K.getD i 0 + chunkWord chunk g)
  (d, w32 (b + rotl32 tmp (md5S.getD i 0)), b, c)

/-- Process one 64-byte chunk into the running state. -/
def md5Chunk (st : Nat × Nat × Nat × Nat) (chunk : List Nat) : Nat × Nat × Nat × Nat :=
  let (a0, b0, c0, d0) := st
  let (a, b, c, d) := (List.range 64).foldl (md5Op chunk) (a0, b0, c0, d0)
  (w32 (a0 + a), w32 (b0 + b), w32 (c0 + c), w32 (d0 + d))

/-- Split the padded message into 64-byte chunks. -/
def chunks64 : Nat → List Nat → List (List Nat)
  | 0, _ => []
  | _ + 1, [] => []
  | f + 1, l => l.take 64 :: chunks64 f (l.drop 64)

/-- The four bytes of a 32-bit word, little endian. -/
def leBytes (x : Nat) : List Nat :=
  [x % 256, x / 256 % 256, x / 65536 % 256, x / 16777216 % 256]

/-- The sixteen digest bytes of MD5. -/
def md5Bytes (msg : List Nat) : List Nat :=
  let padded := md5Pad msg
  let init : Nat × Nat × Nat × Nat := (1732584193, 4023233417, 2562383102, 271733878)
  let (a, b, c, d) := (chunks64 (padded.length + 1) padded).foldl md5Chunk init
  leBytes a ++ leBytes b ++ leBytes c ++ leBytes d

/-- hashlib md5 hexdigest: two lowercase hex characters per byte. -/
def byteHex (b : Nat) : Str := [hexDigit (b / 16 % 16), hexDigit (b % 16)]

def md5Hex (msg : List Nat) : Str := (md5Bytes msg).flatMap byteHex

/-- _generate_cache_key, redis_cache.py lines 38 to 53. -/
def generate_cache_key (prefix_ : Str) (kwargs : List (Str × Str)) : Str :=
  let sorted_params := pySorted kwargs
  let params_str := jsonDumpsPairs sorted_params
  let params_hash := md5Hex (utf8Encode params_str)
  str "llm:" ++ prefix_ ++ (':' :: params_hash)

/-!
Order lemmas for the Python comparison used by sorted: the lexicographic
comparison is irreflexive, asymmetric, transitive and trichotomous, hence
the pair comparison is a total order and sorted output is canonical.
-/

theorem charEqOfToNat {a b : Char} (h : a.toNat = b.toNat) : a = b := by
  have hc := congrArg Char.ofNat h
  rwa [Char.ofNat_toNat, Char.ofNat_toNat] at hc

theorem strLtB_irrefl (a : Str) : strLtB a a = false := by
  induction a with
  | nil => rfl
  | cons x xs ih => simp [strLtB, ih]

theorem strLtB_asym : ∀ a b : Str, strLtB a b = true → strLtB b a = false := by
  intro a
  induction a with
  | nil =>
    intro b hb
    cases b with
    | nil => simp [strLtB] at hb
    | cons y ys => simp [strLtB]
  | cons x xs ih =>
    intro b hb
    cases b with
    | nil => simp [strLtB] at hb
    | cons y ys =>
      simp only [strLtB] at hb ⊢
      by_cases h1 : x.toNat < y.toNat
      · simp [h1] at hb ⊢
        omega
      · by_cases h2 : y.toNat < x.toNat
        · simp [h1, h2] at hb
        · simp [h1, h2] at hb ⊢
          exact ih ys hb

theorem strLtB_trans : ∀ a b c : Str,
    strLtB a b = true → strLtB b c = true → strLtB a c = true := by
  intro a
  induction a with
  | nil =>
    intro b c hab hbc
    cases b with
    | nil => simp [strLtB] at hab
    | cons y ys =>
      cases c with
      | nil => simp [strLtB] at hbc
      | cons z zs => simp [strLtB]
  | cons x xs ih =>
    intro b c hab hbc
    cases b with
    | nil => simp [strLtB] at hab
    | cons y ys =>
      cases c with
      | nil => simp [strLtB] at hbc
      | cons z zs =>
        simp only [strLtB] at hab hbc ⊢
        by_cases h1 : x.toNat < y.toNat <;> by_cases h3 : y.toNat < z.toNat
        · simp only [if_pos (show x.toNat < z.toNat by omega)]
        · by_cases h4 : z.toNat < y.toNat
          · simp [h3, h4] at hbc
          · simp only [if_pos (show x.toNat < z.toNat by omega)]
        · by_cases h2 : y.toNat < x.toNat
          · simp [h1, h2] at hab
          · simp only [if_pos (show x.toNat < z.toNat by omega)]
        · by_cases h2 : y.toNat < x.toNat
          · simp [h1, h2] at hab
          · by_cases h4 : z.toNat < y.toNat
            · simp [h3, h4] at hbc
            · simp only [h1, h2, if_neg, ite_false] at hab
              simp only [h3, h4, if_neg, ite_false] at hbc
              have hxz1 : ¬x.toNat < z.toNat := by omega
              have hxz2 : ¬z.toNat < x.toNat := by omega
              simp only [hxz1, hxz2, if_neg, ite_false]
              exact ih ys zs hab hbc

theorem strLtB_tri (a : Str) : ∀ b : Str,
    strLtB a b = true ∨ a = b ∨ strLtB b a = true := by
  induction a with
  | nil =>
    intro b
    cases b with
    | nil => right; left; rfl
    | cons y ys => left; rfl
  | cons x xs ih =>
    intro b
    cases b with
    | nil => right; right; rfl
    | cons y ys =>
      by_cases h1 : x.toNat < y.toNat
      · left; simp [strLtB, h1]
      · by_cases h2 : y.toNat < x.toNat
        · right; right; simp [strLtB, h2]
        · have hx : x = y := charEqOfToNat (by omega)
          subst hx
          rcases ih ys with h | h | h
          · left; simp [strLtB, h1, h2, h]
          · right; left; rw [h]
          · right; right; simp [strLtB, h1, h2, h]

theorem pairLeB_trans (a b c : Str × Str)
    (hab : pairLeB a b = true) (hbc : pairLeB b c = true) : pairLeB a c = true := by
  simp only [pairLeB, Bool.or_eq_true, Bool.and_eq_true, decide_eq_true_eq] at hab hbc ⊢
  rcases hab with h1 | ⟨he1, h2⟩
  · rcases hbc with h3 | ⟨he3, _⟩
    · exact Or.inl (strLtB_trans _ _ _ h1 h3)
    · rw [he3] at h1; exact Or.inl h1
  · rcases hbc with h3 | ⟨he3, h4⟩
    · rw [he1]; exact Or.inl h3
    · refine Or.inr ⟨he1.trans he3, ?_⟩
      rcases h2 with h2 | h2 <;> rcases h4 with h4 | h4
      · exact Or.inl (strLtB_trans _ _ _ h2 h4)
      · rw [h4] at h2; exact Or.inl h2
      · rw [h2]; exact Or.inl h4
      · exact Or.inr (h2.trans h4)

theorem pairLeB_total (a b : Str × Str) : (pairLeB a b || pairLeB b a) = true := by
  simp only [pairLeB, Bool.or_eq_true, Bool.and_eq_true, decide_eq_true_eq]
  rcases strLtB_tri a.1 b.1 with h | h | h
  · tauto
  · rcases strLtB_tri a.2 b.2 with h2 | h2 | h2 <;> tauto
  · tauto

theorem pairLeB_antisymm (a b : Str × Str)
    (hab : pairLeB a b = true) (hba : pairLeB b a = true) : a = b := by
  simp only [pairLeB, Bool.or_eq_true, Bool.and_eq_true, decide_eq_true_eq] at hab hba
  rcases hab with h1 | ⟨he1, h2⟩
  · rcases hba with h3 | ⟨he3, _⟩
    · have := strLtB_asym _ _ h1; rw [h3] at this; cases this
    · rw [he3] at h1; rw [strLtB_irrefl] at h1; cases h1
  · rcases hba with h3 | ⟨he3, h4⟩
    · rw [he1] at h3; rw [strLtB_irrefl] at h3; cases h3
    · have hv : a.2 = b.2 := by
        rcases h2 with h2 | h2 <;> rcases h4 with h4 | h4
        · have := strLtB_asym _ _ h2; rw [h4] at this; cases this
        · exact h4.symm
        · exact h2
        · exact h2
      exact Prod.ext he1 hv

/-- Sorted output is a function of the multiset of pairs: two permuted
keyword lists sort to the same list. -/
theorem pySorted_perm_eq {kw1 kw2 : List (Str × Str)} (h : kw1.Perm kw2) :
    pySorted kw1 = pySorted kw2 := by
  haveI : IsAntisymm (Str × Str) (fun a b => pairLeB a b = true) := ⟨pairLeB_antisymm⟩
  exact List.eq_of_perm_of_sorted
    (((List.mergeSort_perm kw1 pairLeB).trans h).trans (List.mergeSort_perm kw2 pairLeB).symm)
    (List.sorted_mergeSort (fun a b c => pairLeB_trans a b c) pairLeB_total kw1)
    (List.sorted_mergeSort (fun a b c => pairLeB_trans a b c) pairLeB_total kw2)

/-- The sixteen digest bytes, as a shape fact for the digest width. -/
theorem md5Bytes_length (msg : List Nat) : (md5Bytes msg).length = 16 := by
  unfold md5Bytes
  rcases (chunks64 ((md5Pad msg).length + 1) (md5Pad msg)).foldl md5Chunk
    (1732584193, 4023233417, 2562383102, 271733878) with ⟨a, b, c, d⟩
  simp [leBytes]

theorem flatMapByteHex_length (l : List Nat) : (l.flatMap byteHex).length = 2 * l.length := by
  induction l with
  | nil => rfl
  | cons b t ih =>
    simp only [List.flatMap_cons, List.length_append, List.length_cons, ih, byteHex]
    simp
    omega

theorem md5Hex_length (msg : List Nat) : (md5Hex msg).length = 32 := by
  unfold md5Hex
  rw [flatMapByteHex_length, md5Bytes_length]

/-- C3: the cache key is a pure function of the set of keyword pairs:
permuting the insertion order leaves the key unchanged (sorting them is
canonical for the total pair order), and the key always has the shape
llm:namespace:digest with a 32-character digest. -/
theorem C3_cache_key_deterministic (ns : Str) (kw1 kw2 : List (Str × Str))
    (h : kw1.Perm kw2) :
    generate_cache_key ns kw1 = generate_cache_key ns kw2 ∧
    ∃ digest : Str, generate_cache_key ns kw1 =
      str "llm:" ++ ns ++ (':' :: digest) ∧ digest.length = 32 := by
  constructor
  · unfold generate_cache_key
    rw [pySorted_perm_eq h]
  · exact ⟨md5Hex (utf8Encode (jsonDumpsPairs (pySorted kw1))), rfl, md5Hex_length _⟩

/-- C3 witness: the two insertion orders of the assessment key fields
give the same key. -/
theorem C3_cache_key_deterministic_witness :
    ([(str "type", str "medical"), (str "desc", str "chest pain")].Perm
      [(str "desc", str "chest pain"), (str "type", str "medical")]) ∧
    generate_cache_key (str "assessment")
        [(str "type", str "medical"), (str "desc", str "chest pain")] =
      generate_cache_key (str "assessment")
        [(str "desc", str "chest pain"), (str "type", str "medical")] :=
  ⟨by decide,
   (C3_cache_key_deterministic (str "assessment") _ _ (by decide)).1⟩
